import Mathlib

/-!
Verification of the tRPC-over-extension-port messaging layer
(src/lib/messaging/trpc.ts).

The file shallowly embeds the client link (`extensionLink`, in particular its
per-call `messageHandler`) and the server handler (`createExtensionHandler`,
its per-connection `port.onMessage` listener, its subscription observer
callbacks and its `port.onDisconnect` listener) as executable Lean functions,
and proves the specified properties about them.

Modelling conventions:
- the opaque wire payload is a type parameter `α`; a payload slot that can be
  absent (`undefined` in the source) is `Option α`;
- the per-connection `Map` of subscriptions is an association list with unique
  keys; `Map.get` / `Map.set` / `Map.delete` become `getEntry` / `setEntry` /
  `deleteEntry`;
- a tRPC observable is represented by the list of events it emits
  synchronously while `subscribe` runs; events the stream emits later reach
  the connection as separate `ServerEvt.stream*` events, exactly mirroring
  the observer callbacks registered at trpc.ts lines 192-234;
- the context factory is modelled by a flag `ctxThrows`: when true,
  `await createContext?.()` (line 172) throws, and — since that await sits
  outside the `try` block that starts at line 178 — the rejection escapes the
  async listener; this is recorded in the `escaped` field of the output;
- the external router (`callProcedure`, line 181) is a function supplied by
  the environment returning a value, an observable, or a thrown error.
-/

namespace ExtMessaging

/-- Call kinds carried in the envelope `method` field; the wire strings are
"query", "mutation", "subscription" and "subscription.stop". -/
inductive Method where
  | query
  | mutation
  | subscription
  | subscriptionStop
deriving DecidableEq

/-- Tag of a `result` payload: "data", "started" or "stopped". -/
inductive ResultType where
  | data
  | started
  | stopped
deriving DecidableEq

/-- Request parameters: operation path and (transformed) input. -/
structure TRPCParams (α : Type) where
  path : String
  input : Option α := none
deriving DecidableEq

/-- Successful-result payload of a response envelope. -/
structure TRPCResult (α : Type) where
  type : ResultType
  data : Option α := none
deriving DecidableEq

/-- Structured data nested inside a wire error: the internal classification
string, an HTTP-status hint, and optional stack / path diagnostics. -/
structure WireErrorData where
  code : String
  httpStatus : Nat
  stack : Option String := none
  path : Option String := none
deriving DecidableEq

/-- Wire error field: JSON-RPC numeric code, message, optional data. -/
structure WireError where
  code : Int
  message : String
  data : Option WireErrorData := none
deriving DecidableEq

/-- One wire envelope (the `trpc` field of an ExtensionMessage). Fields that
the source leaves `undefined` are `none`. -/
structure TRPCMessage (α : Type) where
  id : Option String := none
  jsonrpc : Option String := none
  method : Option Method := none
  params : Option (TRPCParams α) := none
  result : Option (TRPCResult α) := none
  error : Option WireError := none
deriving DecidableEq

/-- Internal server-side error model, as produced by
`getTRPCErrorFromUnknown`: a classification code string (such as
"NOT_FOUND" or "INTERNAL_SERVER_ERROR"), a message, an optional stack. -/
structure TRPCError where
  code : String
  message : String
  stack : Option String := none
deriving DecidableEq

/-- Transformer: a serialize/deserialize pair applied to payload slots. -/
structure Transformer (α : Type) where
  serialize : Option α → Option α
  deserialize : Option α → Option α

/-- Default transformer (passthrough), trpc.ts lines 28-31. -/
def defaultTransformer {α : Type} : Transformer α := ⟨id, id⟩

/-- Options accepted by `extensionLink`. The link body reads only the
transformer (line 47) and the port options (line 52); a timeout, listed by
the configuration surface, is declared here but never read by the link. -/
structure ExtensionLinkOptions (α : Type) where
  transformer : Option (Transformer α) := none
  timeoutMs : Option Nat := none
  portName : Option String := none

/-- The rejection the caller observes: the link builds
`TRPCClientError.from(new TRPCError({code, message}))` (lines 73-78), so the
observable error carries a classification code and a message. -/
structure TRPCClientError where
  code : String
  message : String
deriving DecidableEq

/-- Events delivered to the caller-facing observer of one call. -/
inductive ObsEvent (α : Type) where
  | next (data : Option α)
  | error (e : TRPCClientError)
  | complete
deriving DecidableEq

/-- Request envelope built by the client link, trpc.ts lines 56-64. -/
def clientRequest {α : Type} (tr : Transformer α) (opType : Method)
    (path : String) (input : Option α) (messageId : String) : TRPCMessage α :=
  { id := some messageId, jsonrpc := some "2.0", method := some opType,
    params := some { path := path, input := tr.serialize input } }

/-- The client response listener, trpc.ts lines 69-100. Returns the observer
events one inbound envelope produces for the call with id `messageId`:
- an envelope whose id differs is ignored (line 70);
- an `error` field rejects the call with a `TRPCClientError` wrapping a
  `TRPCError` whose code is the literal "INTERNAL_SERVER_ERROR" and whose
  message is the wire error message (lines 72-81); the envelope's `result`
  is never reached because of the early return (line 80);
- otherwise a `result` of type "stopped" completes the observer, and any
  other result type emits `next` with the deserialized data, followed by
  `complete` for non-subscription calls (lines 83-99). -/
def messageHandler {α : Type} (opType : Method) (messageId : String)
    (deserialize : Option α → Option α) (response : TRPCMessage α) :
    List (ObsEvent α) :=
  if response.id ≠ some messageId then []
  else
    match response.error with
    | some e =>
      [ObsEvent.error { code := "INTERNAL_SERVER_ERROR", message := e.message }]
    | none =>
      match response.result with
      | none => []
      | some r =>
        match r.type with
        | ResultType.stopped => [ObsEvent.complete]
        | _ =>
          ObsEvent.next (deserialize r.data) ::
            (if opType = Method.subscription then [] else [ObsEvent.complete])

/-- The port-level events a pending call can observe: an inbound envelope, or
the port disconnecting. -/
inductive ClientEvt (α : Type) where
  | msg (m : TRPCMessage α)
  | disconnect
deriving DecidableEq

/-- Reaction of one pending call to one port event. `extensionLink` registers
exactly one listener, `port.onMessage.addListener(messageHandler)` (line
102); no `onDisconnect` listener is registered anywhere in the link, so a
port disconnect invokes no callback of the call and produces no
observer event. -/
def clientHandleEvt {α : Type} (opType : Method) (messageId : String)
    (deserialize : Option α → Option α) : ClientEvt α → List (ObsEvent α)
  | ClientEvt.msg m => messageHandler opType messageId deserialize m
  | ClientEvt.disconnect => []

/-- Observer events produced by a sequence of inbound envelopes; the listener
is stateless, so the run is the concatenation of per-envelope reactions. -/
def clientRun {α : Type} (opType : Method) (messageId : String)
    (deserialize : Option α → Option α) : List (TRPCMessage α) → List (ObsEvent α)
  | [] => []
  | m :: rest =>
    messageHandler opType messageId deserialize m ++
      clientRun opType messageId deserialize rest

/-- Observer events produced by a sequence of port events. -/
def clientRunEvts {α : Type} (opType : Method) (messageId : String)
    (deserialize : Option α → Option α) : List (ClientEvt α) → List (ObsEvent α)
  | [] => []
  | e :: rest =>
    clientHandleEvt opType messageId deserialize e ++
      clientRunEvts opType messageId deserialize rest

/-- Transformer selection performed by the link, trpc.ts line 47. -/
def linkTransformer {α : Type} (o : ExtensionLinkOptions α) : Transformer α :=
  o.transformer.getD defaultTransformer

/-- Caller-visible behavior of one call issued through `extensionLink` with
the given options, as a function of the port events that reach it. -/
def extensionLinkRun {α : Type} (o : ExtensionLinkOptions α) (opType : Method)
    (messageId : String) (evts : List (ClientEvt α)) : List (ObsEvent α) :=
  clientRunEvts opType messageId (linkTransformer o).deserialize evts

/-- The inbound envelopes contained in a port-event sequence, in order. -/
def eventMessages {α : Type} : List (ClientEvt α) → List (TRPCMessage α)
  | [] => []
  | ClientEvt.msg m :: rest => m :: eventMessages rest
  | ClientEvt.disconnect :: rest => eventMessages rest

/-- Stop envelope sent by the client on subscription teardown,
trpc.ts lines 110-116. -/
def stopMsg {α : Type} (messageId : String) : TRPCMessage α :=
  { id := some messageId, jsonrpc := some "2.0",
    method := some Method.subscriptionStop }

/-- Server-side Subscription Registry: the per-connection
`Map<string, Unsubscribable>` (line 154), with subscription handles
identified by numbers. -/
abbrev Subs := List (String × Nat)

/-- Map.get: the handle stored under `i`, if any. -/
def getEntry (i : String) (s : Subs) : Option Nat :=
  (s.find? (fun p => p.1 == i)).map (fun p => p.2)

/-- Map.delete: remove the binding for `i`. -/
def deleteEntry (i : String) (s : Subs) : Subs :=
  s.filter (fun p => p.1 != i)

/-- Map.set: store `h` under `i`, replacing any existing binding. -/
def setEntry (i : String) (h : Nat) (s : Subs) : Subs :=
  deleteEntry i s ++ [(i, h)]

/-- Events one observable emits synchronously while `subscribe` runs: the
observer callbacks `next` / `error` / `complete` of trpc.ts lines 193-233. -/
inductive StreamEvt (α : Type) where
  | next (d : Option α)
  | error (e : TRPCError)
  | complete
deriving DecidableEq

/-- Outcome of `callProcedure` (line 181) for one request: a plain (awaited)
value, an observable (given by its synchronous emissions), or a thrown or
rejected error as normalized by `getTRPCErrorFromUnknown` (line 262). -/
inductive RouterResult (α : Type) where
  | value (v : Option α)
  | stream (sync : List (StreamEvt α))
  | thrown (e : TRPCError)

/-- The external router: method, path and deserialized input determine the
outcome of `callProcedure`. -/
abbrev Router (α : Type) := Method → String → Option α → RouterResult α

/-- Data reply envelope, built identically by the query/mutation success
branch (lines 250-259) and the subscription `next` callback (lines 194-203):
the payload is serialized through the transformer. -/
def dataMsg {α : Type} (tr : Transformer α) (i : String) (d : Option α) :
    TRPCMessage α :=
  { id := some i, result := some { type := ResultType.data, data := tr.serialize d } }

/-- Started reply envelope, lines 239-246. -/
def startedMsg {α : Type} (i : String) : TRPCMessage α :=
  { id := some i, result := some { type := ResultType.started } }

/-- Stopped reply envelope, built by the `complete` callback, lines 223-230. -/
def stoppedMsg {α : Type} (i : String) : TRPCMessage α :=
  { id := some i, result := some { type := ResultType.stopped } }

/-- Error reply envelope built by the subscription observer `error` callback
(lines 205-221): numeric code -32603, the error message, and nested data
carrying the classification and httpStatus 500 (no stack, no path). -/
def streamErrMsg {α : Type} (i : String) (e : TRPCError) : TRPCMessage α :=
  { id := some i,
    error := some { code := -32603, message := e.message,
                    data := some { code := e.code, httpStatus := 500 } } }

/-- Error reply envelope built by the catch block (lines 273-288): like
`streamErrMsg` but additionally carrying the stack and the failing path. -/
def catchErrMsg {α : Type} (i : String) (e : TRPCError) (path : String) :
    TRPCMessage α :=
  { id := some i,
    error := some { code := -32603, message := e.message,
                    data := some { code := e.code, httpStatus := 500,
                                   stack := e.stack, path := some path } } }

/-- Per-connection server state: the Subscription Registry, plus a counter
supplying fresh handle identifiers for newly subscribed streams. -/
structure ServerState where
  subs : Subs
  nextHandle : Nat
deriving DecidableEq

/-- Events reaching one inbound connection: an inbound envelope on the port,
an event emitted later by a subscribed stream (delivered to the observer
callbacks of lines 193-233, which capture the subscription's id), or the
port disconnecting. -/
inductive ServerEvt (α : Type) where
  | msg (m : TRPCMessage α)
  | streamNext (i : String) (d : Option α)
  | streamError (i : String) (e : TRPCError)
  | streamComplete (i : String)
  | disconnect
deriving DecidableEq

/-- Observable effects of processing one server event: the reply envelopes
posted on the port in order, the subscription handles unsubscribed in order,
and whether an exception escaped the async listener unhandled. -/
structure ServerOutput (α : Type) where
  posted : List (TRPCMessage α)
  unsubs : List Nat
  escaped : Bool
deriving DecidableEq

/-- Output of an event that posts nothing, unsubscribes nothing and does not
escape. -/
def noOutput {α : Type} : ServerOutput α :=
  { posted := [], unsubs := [], escaped := false }

/-- One synchronous stream event processed by the observer callbacks of
lines 193-233, threading the posted replies and the registry:
`next` posts a data envelope; `error` posts the error envelope (and touches
nothing else — in particular it does not delete the registry entry);
`complete` posts the stopped envelope and deletes the entry (line 232). -/
def runSyncEvt {α : Type} (tr : Transformer α) (i : String)
    (acc : List (TRPCMessage α) × Subs) :
    StreamEvt α → List (TRPCMessage α) × Subs
  | StreamEvt.next d => (acc.1 ++ [dataMsg tr i d], acc.2)
  | StreamEvt.error e => (acc.1 ++ [streamErrMsg i e], acc.2)
  | StreamEvt.complete => (acc.1 ++ [stoppedMsg i], deleteEntry i acc.2)

/-- All events an observable emits synchronously during `subscribe`
(line 192), processed in order. -/
def runSync {α : Type} (tr : Transformer α) (i : String)
    (sync : List (StreamEvt α)) (s : Subs) : List (TRPCMessage α) × Subs :=
  sync.foldl (runSyncEvt tr i) ([], s)

/-- Request handling after context creation succeeded, trpc.ts lines
175-289: deserialize the input, invoke the router, and branch.
- A thrown error is converted and posted with stack and path (catch block).
- When the method is `subscription` and the result is an observable
  (line 191), `subscribe` runs first — emitting any synchronous stream
  events — then the subscription is registered under a fresh handle
  (line 236) and only then is the started envelope posted (line 247).
- Otherwise the (serialized) result is posted as a data envelope; an
  observable returned to a non-subscription call also takes this branch, its
  non-wire payload modelled as an absent data payload. -/
def handleRequest {α : Type} (router : Router α) (tr : Transformer α)
    (st : ServerState) (i : String) (mth : Method) (p : TRPCParams α) :
    ServerState × ServerOutput α :=
  match router mth p.path (tr.deserialize p.input) with
  | RouterResult.thrown e =>
    (st, { posted := [catchErrMsg i e p.path], unsubs := [], escaped := false })
  | RouterResult.stream sync =>
    if mth = Method.subscription then
      let ps := runSync tr i sync st.subs
      ({ subs := setEntry i st.nextHandle ps.2, nextHandle := st.nextHandle + 1 },
       { posted := ps.1 ++ [startedMsg i], unsubs := [], escaped := false })
    else
      (st, { posted := [dataMsg tr i none], unsubs := [], escaped := false })
  | RouterResult.value v =>
    (st, { posted := [dataMsg tr i v], unsubs := [], escaped := false })

/-- The per-connection server machine, mirroring the listeners installed by
`createExtensionHandler` for one port (trpc.ts lines 153-298):
- an envelope without id is ignored (line 159);
- a `subscription.stop` looks up the id in the registry and, when present,
  unsubscribes the handle and deletes the entry; no reply either way, and
  note this runs before context creation (lines 162-169);
- for every other envelope the listener first awaits the context factory
  (line 172, outside the try block): a context-factory failure therefore
  escapes the listener with nothing posted and the state unchanged;
- an envelope with both method and params is a request (line 175), handled
  by `handleRequest`; otherwise nothing happens;
- stream events reach the observer callbacks of lines 193-233 regardless of
  registry contents, with the effects described at `runSyncEvt`;
- on disconnect every registered handle is unsubscribed in registry order
  and the registry is cleared, with no reply posted (lines 294-297). -/
def serverStep {α : Type} (ctxThrows : Bool) (router : Router α)
    (tr : Transformer α) (st : ServerState) :
    ServerEvt α → ServerState × ServerOutput α
  | ServerEvt.msg m =>
    match m.id with
    | none => (st, noOutput)
    | some i =>
      if m.method = some Method.subscriptionStop then
        match getEntry i st.subs with
        | some h =>
          ({ st with subs := deleteEntry i st.subs },
           { posted := [], unsubs := [h], escaped := false })
        | none => (st, noOutput)
      else if ctxThrows then
        (st, { posted := [], unsubs := [], escaped := true })
      else
        match m.method, m.params with
        | some mth, some p => handleRequest router tr st i mth p
        | _, _ => (st, noOutput)
  | ServerEvt.streamNext i d =>
    (st, { posted := [dataMsg tr i d], unsubs := [], escaped := false })
  | ServerEvt.streamError i e =>
    (st, { posted := [streamErrMsg i e], unsubs := [], escaped := false })
  | ServerEvt.streamComplete i =>
    ({ st with subs := deleteEntry i st.subs },
     { posted := [stoppedMsg i], unsubs := [], escaped := false })
  | ServerEvt.disconnect =>
    ({ st with subs := [] },
     { posted := [], unsubs := st.subs.map (fun p => p.2), escaped := false })

section Claims

open ExtMessaging

/-- C1: Correlation integrity — the caller's observer receives events only
from response envelopes whose `id` equals the call's correlation id: the
events produced by any inbound envelope sequence equal those produced by its
subsequence of envelopes carrying the call's id, so an envelope with any
other id has no effect, regardless of arrival order or path. -/
theorem correlation_integrity {α : Type} (opType : Method) (messageId : String)
    (d : Option α → Option α) (msgs : List (TRPCMessage α)) :
    clientRun opType messageId d msgs =
      clientRun opType messageId d
        (msgs.filter (fun m => decide (m.id = some messageId))) := by
  induction msgs with
  | nil => rfl
  | cons m rest ih =>
    by_cases h : m.id = some messageId
    · simp [clientRun, List.filter_cons, h, ih]
    · have hm : messageHandler opType messageId d m = [] := by
        simp [messageHandler, h]
      simp [clientRun, List.filter_cons, h, hm, ih]

/-- C2 counterexample: the server reports an error classified "NOT_FOUND"
(carried in `error.data.code` of the reply it posts), but the rejection the
client-side caller observes is classified "INTERNAL_SERVER_ERROR" — the
client link hardcodes that code at trpc.ts line 75 and never reads
`error.data.code` — so the claim that the rejection carries the server's
classification is false (the message is preserved, the classification is
not). -/
theorem classification_not_preserved :
    messageHandler (α := Nat) Method.query "q1" id
        (catchErrMsg "q1" { code := "NOT_FOUND", message := "no user" } "user.get") =
      [ObsEvent.error { code := "INTERNAL_SERVER_ERROR", message := "no user" }] ∧
    "INTERNAL_SERVER_ERROR" ≠ "NOT_FOUND" := by
  exact ⟨rfl, by decide⟩

/-- C2 amended: for every error reply the server's catch block posts, the
rejection observed by the caller is an error carrying the same message as
the server-reported error, but its classification is always
"INTERNAL_SERVER_ERROR", regardless of the classification the reply carries
in `error.data.code`. -/
theorem error_reply_message_preserved {α : Type} (opType : Method)
    (messageId path : String) (d : Option α → Option α) (e : TRPCError) :
    messageHandler opType messageId d (catchErrMsg messageId e path) =
      [ObsEvent.error { code := "INTERNAL_SERVER_ERROR", message := e.message }] := by
  simp [messageHandler, catchErrMsg]

/-- C10: when an inbound envelope with the call's id carries both an `error`
field and a `result` field, the client delivers only the error termination:
the early return at trpc.ts line 80 makes the error branch take precedence,
and no data event is emitted from such an envelope. -/
theorem error_takes_precedence {α : Type} (opType : Method) (messageId : String)
    (d : Option α → Option α) (m : TRPCMessage α) (e : WireError)
    (r : TRPCResult α) (hid : m.id = some messageId) (he : m.error = some e)
    (hr : m.result = some r) :
    messageHandler opType messageId d m =
      [ObsEvent.error { code := "INTERNAL_SERVER_ERROR", message := e.message }] := by
  simp [messageHandler, hid, he]

/-- Witness for C10 at a concrete envelope carrying both a data result and
an error. -/
theorem error_takes_precedence_witness :
    messageHandler (α := Nat) Method.query "q1" id
        { id := some "q1",
          result := some { type := ResultType.data, data := some 3 },
          error := some { code := -32603, message := "boom" } } =
      [ObsEvent.error { code := "INTERNAL_SERVER_ERROR", message := "boom" }] :=
  error_takes_precedence Method.query "q1" id _ _ _ rfl rfl rfl

/-- C3 counterexample: for a concrete inbound query request whose context
factory rejects, the server posts no reply envelope at all — in particular
no error reply for the request's id — and the rejection escapes the async
message listener unhandled (`await createContext?.()` at trpc.ts line 172
sits outside the try block that starts at line 178), so context-factory
failures are not handled like router execution failures. -/
theorem context_failure_no_reply :
    serverStep (α := Nat) true (fun _ _ _ => RouterResult.value none)
        defaultTransformer { subs := [], nextHandle := 0 }
        (ServerEvt.msg { id := some "q1", jsonrpc := some "2.0",
                         method := some Method.query,
                         params := some { path := "users.get", input := some 42 } }) =
      ({ subs := [], nextHandle := 0 },
       { posted := [], unsubs := [], escaped := true }) := by
  rfl

/-- C3 amended: when the context factory throws or rejects, an inbound
envelope other than a `subscription.stop` produces no reply envelope, leaves
the registry untouched, and the rejection escapes the message listener
unhandled; only failures occurring inside the try block (input
deserialization, router execution, reply construction) are converted into an
error reply. -/
theorem context_failure_escapes {α : Type} (router : Router α)
    (tr : Transformer α) (st : ServerState) (m : TRPCMessage α) (i : String)
    (hid : m.id = some i) (hm : m.method ≠ some Method.subscriptionStop) :
    serverStep true router tr st (ServerEvt.msg m) =
      (st, { posted := [], unsubs := [], escaped := true }) := by
  simp [serverStep, hid, hm]

/-- Witness for the amended C3 at a concrete mutation request. -/
theorem context_failure_escapes_witness :
    serverStep (α := Nat) true (fun _ _ _ => RouterResult.value none)
        defaultTransformer { subs := [], nextHandle := 0 }
        (ServerEvt.msg { id := some "m1", method := some Method.mutation,
                         params := some { path := "p", input := none } }) =
      ({ subs := [], nextHandle := 0 },
       { posted := [], unsubs := [], escaped := true }) :=
  context_failure_escapes _ _ _ _ "m1" rfl (by decide)

/-- C4 counterexample: a Connection disconnect while a query is pending
delivers no event at all to the caller — the pending call is not rejected
with a disconnection-classified error (nor with anything else), because
`extensionLink` registers only a `port.onMessage` listener (trpc.ts line
102) and no `onDisconnect` listener, so the claim that disconnection settles
every pending call is false. -/
theorem disconnect_delivers_nothing :
    extensionLinkRun (α := Nat) {} Method.query "q1" [ClientEvt.disconnect] =
      [] := by
  rfl

/-- C4 amended: the client link registers no disconnect handler, so a
Connection disconnect has no client-visible effect: pending queries and
mutations are not rejected, subscription streams are not terminated, and no
pending-call state is cleared — the caller-observed event sequence of any
port-event sequence equals that of its inbound envelopes alone, with
disconnect events contributing nothing. -/
theorem disconnect_has_no_client_effect {α : Type} (o : ExtensionLinkOptions α)
    (opType : Method) (messageId : String) (evts : List (ClientEvt α)) :
    extensionLinkRun o opType messageId evts =
      clientRun opType messageId (linkTransformer o).deserialize
        (eventMessages evts) := by
  induction evts with
  | nil => rfl
  | cons e rest ih =>
    cases e with
    | msg m =>
      simp only [extensionLinkRun, clientRunEvts, clientHandleEvt,
        eventMessages, clientRun] at *
      rw [ih]
    | disconnect =>
      simp only [extensionLinkRun, clientRunEvts, clientHandleEvt,
        eventMessages, List.nil_append] at *
      exact ih

/-- C8 counterexample: a query issued with a configured `timeoutMs` of 50 to
which no response envelope ever arrives produces no observer event at all —
in particular it never rejects with a timeout-classified error, because
`extensionLink` contains no timer and never reads `timeoutMs` — so the claim
that a configured timeout rejects the call is false (the call hangs). -/
theorem configured_timeout_never_fires :
    extensionLinkRun (α := Nat) { timeoutMs := some 50 } Method.query "q1" [] =
      [] := by
  rfl

/-- C8 amended: the client link implements no timeout: its behavior is
independent of the configured `timeoutMs`, and no caller ever observes a
timeout-classified rejection — every error event carries the classification
"INTERNAL_SERVER_ERROR" and stems from an inbound error envelope — so a
matching response is delivered whenever it arrives (never discarded), and a
call with no matching response never settles. -/
theorem no_timeout_mechanism {α : Type} (o : ExtensionLinkOptions α)
    (t : Option Nat) (opType : Method) (messageId : String)
    (evts : List (ClientEvt α)) :
    extensionLinkRun { o with timeoutMs := t } opType messageId evts =
      extensionLinkRun o opType messageId evts ∧
    (extensionLinkRun o opType messageId evts).all
      (fun ev => match ev with
        | ObsEvent.error e => e.code == "INTERNAL_SERVER_ERROR"
        | _ => true) = true := by
  refine ⟨rfl, ?_⟩
  induction evts with
  | nil => rfl
  | cons e rest ih =>
    simp only [extensionLinkRun, clientRunEvts, List.all_append,
      Bool.and_eq_true] at *
    refine ⟨?_, ih⟩
    cases e with
    | disconnect => rfl
    | msg m =>
      simp only [clientHandleEvt, messageHandler]
      split
      · rfl
      · split
        · rfl
        · split
          · rfl
          · split
            · rfl
            · split <;> rfl

/-- C5: when an inbound Connection's port disconnects, every subscription
handle registered in that Connection's registry is unsubscribed (in registry
order), the registry is left empty, and no reply envelope is posted during
the teardown (trpc.ts lines 294-297). -/
theorem disconnect_cleanup {α : Type} (c : Bool) (router : Router α)
    (tr : Transformer α) (st : ServerState) :
    serverStep c router tr st ServerEvt.disconnect =
      ({ subs := [], nextHandle := st.nextHandle },
       { posted := [], unsubs := st.subs.map (fun p => p.2), escaped := false }) := by
  rfl

/-- C6 counterexample: with the subscription "s1" registered under handle 7,
a stream error posts the error envelope for "s1" but leaves the registry
unchanged — the entry for "s1" is still present afterward — because the
subscription observer's `error` callback (trpc.ts lines 205-221) never calls
`subscriptions.delete`, unlike the `complete` callback (line 232); so the
claim that the entry is removed on stream error is false. -/
theorem stream_error_entry_remains :
    serverStep (α := Nat) false (fun _ _ _ => RouterResult.value none)
        defaultTransformer { subs := [("s1", 7)], nextHandle := 8 }
        (ServerEvt.streamError "s1"
          { code := "INTERNAL_SERVER_ERROR", message := "boom" }) =
      ({ subs := [("s1", 7)], nextHandle := 8 },
       { posted := [streamErrMsg "s1"
                      { code := "INTERNAL_SERVER_ERROR", message := "boom" }],
         unsubs := [], escaped := false }) ∧
    getEntry "s1" [("s1", 7)] = some 7 := by
  exact ⟨rfl, rfl⟩

/-- C6 amended: for every registered subscription whose stream signals an
error, the server sends an error envelope for that subscription's id
(carrying the error's classification in `error.data.code`), but the
corresponding registry entry is not removed: the registry is left unchanged,
and the entry disappears only on an explicit stop, on stream completion, or
on disconnect. -/
theorem stream_error_sends_but_keeps_entry {α : Type} (c : Bool)
    (router : Router α) (tr : Transformer α) (st : ServerState) (i : String)
    (e : TRPCError) :
    serverStep c router tr st (ServerEvt.streamError i e) =
      (st, { posted := [streamErrMsg i e], unsubs := [], escaped := false }) := by
  rfl

/-- C7 counterexample: for a subscription request whose stream emits the
item 5 synchronously upon subscribe, the server posts the data envelope
before the started envelope — `result.subscribe` (trpc.ts line 192) runs the
observer callbacks before the started message is posted at line 247 — so the
claim that no data envelope precedes the started envelope is false. -/
theorem sync_data_precedes_started :
    (serverStep (α := Nat) false
        (fun _ _ _ => RouterResult.stream [StreamEvt.next (some 5)])
        defaultTransformer { subs := [], nextHandle := 0 }
        (ServerEvt.msg { id := some "s1", jsonrpc := some "2.0",
                         method := some Method.subscription,
                         params := some { path := "feed.watch", input := none } })).2.posted =
      [dataMsg defaultTransformer "s1" (some 5), startedMsg "s1"] := by
  rfl

/-- C7 amended: the started envelope is sent only after `subscribe` returns,
so items a stream emits synchronously upon subscribe are sent before it;
when the stream emits nothing synchronously, handling the subscription
request posts exactly the started envelope and registers the stream under a
fresh handle — every data envelope for that id is then produced by later
stream events and thus follows started on the wire. -/
theorem started_first_without_sync_emissions {α : Type} (r : Router α)
    (tr : Transformer α) (st : ServerState) (i p : String) (v : Option α)
    (h : r Method.subscription p (tr.deserialize v) = RouterResult.stream []) :
    serverStep false r tr st
        (ServerEvt.msg { id := some i, jsonrpc := some "2.0",
                         method := some Method.subscription,
                         params := some { path := p, input := v } }) =
      ({ subs := setEntry i st.nextHandle st.subs, nextHandle := st.nextHandle + 1 },
       { posted := [startedMsg i], unsubs := [], escaped := false }) := by
  simp [serverStep, handleRequest, h, runSync]

/-- Witness for the amended C7 at a concrete subscription request whose
stream emits nothing synchronously. -/
theorem started_first_without_sync_emissions_witness :
    serverStep (α := Nat) false (fun _ _ _ => RouterResult.stream [])
        defaultTransformer { subs := [], nextHandle := 0 }
        (ServerEvt.msg { id := some "s1", jsonrpc := some "2.0",
                         method := some Method.subscription,
                         params := some { path := "feed.watch", input := none } }) =
      ({ subs := [("s1", 0)], nextHandle := 1 },
       { posted := [startedMsg "s1"], unsubs := [], escaped := false }) :=
  started_first_without_sync_emissions _ _ _ "s1" "feed.watch" none rfl

/-- Looking an id up after deleting it yields nothing: the registry deletion
removes every binding for the key. -/
theorem getEntry_deleteEntry (i : String) (s : Subs) :
    getEntry i (deleteEntry i s) = none := by
  have : (deleteEntry i s).find? (fun p => p.1 == i) = none := by
    rw [List.find?_eq_none]
    intro x hx
    have hmem := List.mem_filter.mp hx
    have hne : x.1 ≠ i := by
      simpa [bne_iff_ne] using hmem.2
    simp [hne]
  simp [getEntry, this]

/-- Deleting an id that is not bound leaves the registry unchanged. -/
theorem deleteEntry_of_getEntry_none (i : String) (s : Subs)
    (h : getEntry i s = none) : deleteEntry i s = s := by
  have hf : s.find? (fun p => p.1 == i) = none := by
    cases hc : s.find? (fun p => p.1 == i) with
    | none => rfl
    | some x => simp [getEntry, hc] at h
  rw [List.find?_eq_none] at hf
  apply List.filter_eq_self.mpr
  intro x hx
  have : ¬ (x.1 == i) = true := hf x hx
  simpa [bne_iff_ne] using fun he => this (by simpa using he)

/-- C9: idempotent stop — processing a `subscription.stop` envelope never
posts a reply and never lets an exception escape (the stop branch at trpc.ts
lines 162-169 runs before context creation, so this holds even when the
context factory throws); it unsubscribes exactly the handle stored under the
id (none when the id is unknown, already completed or already stopped) and
removes the entry; and processing the same stop a second time is a complete
no-op: no reply, no unsubscription, state unchanged. -/
theorem stop_idempotent {α : Type} (c : Bool) (r : Router α)
    (tr : Transformer α) (st : ServerState) (i : String) :
    (serverStep c r tr st (ServerEvt.msg (stopMsg i))).2 =
      { posted := [], unsubs := (getEntry i st.subs).toList, escaped := false } ∧
    (serverStep c r tr st (ServerEvt.msg (stopMsg i))).1 =
      { subs := deleteEntry i st.subs, nextHandle := st.nextHandle } ∧
    serverStep c r tr (serverStep c r tr st (ServerEvt.msg (stopMsg i))).1
        (ServerEvt.msg (stopMsg i)) =
      ((serverStep c r tr st (ServerEvt.msg (stopMsg i))).1,
       { posted := [], unsubs := [], escaped := false }) := by
  have hstep : ∀ s : ServerState,
      serverStep c r tr s (ServerEvt.msg (stopMsg (α := α) i)) =
        match getEntry i s.subs with
        | some h =>
          ({ s with subs := deleteEntry i s.subs },
           { posted := [], unsubs := [h], escaped := false })
        | none => (s, noOutput) := by
    intro s
    simp [serverStep, stopMsg]
  cases hg : getEntry i st.subs with
  | some h =>
    have h1 : serverStep c r tr st (ServerEvt.msg (stopMsg (α := α) i)) =
        ({ subs := deleteEntry i st.subs, nextHandle := st.nextHandle },
         { posted := [], unsubs := [h], escaped := false }) := by
      rw [hstep]; simp [hg]
    refine ⟨?_, ?_, ?_⟩
    · rw [h1]; simp [hg, Option.toList]
    · rw [h1]
    · rw [h1]
      show serverStep c r tr
          { subs := deleteEntry i st.subs, nextHandle := st.nextHandle }
          (ServerEvt.msg (stopMsg (α := α) i)) =
        ({ subs := deleteEntry i st.subs, nextHandle := st.nextHandle },
         { posted := [], unsubs := [], escaped := false })
      rw [hstep]
      simp [getEntry_deleteEntry, noOutput]
  | none =>
    have h1 : serverStep c r tr st (ServerEvt.msg (stopMsg (α := α) i)) =
        (st, noOutput) := by
      rw [hstep]; simp [hg]
    have hdel : deleteEntry i st.subs = st.subs :=
      deleteEntry_of_getEntry_none i st.subs hg
    refine ⟨?_, ?_, ?_⟩
    · rw [h1]; simp [hg, noOutput, Option.toList]
    · rw [h1]; simp [hdel, noOutput]
    · rw [h1]
      show serverStep c r tr st (ServerEvt.msg (stopMsg (α := α) i)) =
        (st, { posted := [], unsubs := [], escaped := false })
      rw [hstep]
      simp [hg, noOutput]

end Claims

end ExtMessaging
